import Mathlib

/-!
Verification development for the `ub` toy-language front end.

The repository contains three generations of a chumsky-based recursive-descent
parser for a small C-like language:

* `src/parser/src/parser.rs`  — spanned AST, no node ids (namespace `Gen1`)
* `src/src/parser.rs`         — spanned AST with `NodeId`s allocated from a
  `ParserState` counter threaded through the parse (namespace `Gen2`)
* `src/ub_parser/src/parser.rs` — earliest generation: unspanned `Expr` (except
  literals and `BinOp`, whose span is hardcoded `0..0`), nested items allowed in
  statement position, no end-of-input check in the file rule (namespace `Gen3`)

The chumsky combinators used by the source (`or`, `then`, `repeated`,
`separated_by`, `delimited_by`, `or_not`, `foldl`, `foldr`, `map_with_span`,
`filter_map`/`select!`, `just`, `end`) are PEG-style with full backtracking on
`or`; `repeated` is greedy and stops at the first failing repetition.  They are
embedded below as functions from a token stream (a list of token/span pairs
produced by the external lexer) to a parse result.  A state component `σ` is
threaded through every combinator: the second generation allocates `NodeId`s
from an interior-mutability counter whose updates survive backtracking, so the
state must flow through failed alternatives exactly as the `Cell` does in Rust.

Machine integers are modelled as `Nat` with explicit `% 2 ^ w` where overflow
matters (the `u32` node-id counter); the `u64` integer-literal conversion
(`str::parse::<u64>` + `unwrap`) is modelled by `u64FromStr`, with a distinct
`panic` parse result for the `None → unwrap` abort.
-/

/-- Half-open byte span `[start, stop)` into the source text
(Rust `Range<usize>`; `stop` is Rust's `end`). -/
structure Span where
  start : Nat
  stop : Nat
deriving Repr, DecidableEq

/-- Binary operator kinds, shared verbatim by all three generations. -/
inductive BinOpKind where
  | mul | div | add | sub | eq | neq
deriving Repr, DecidableEq

/-- Unary operator kinds (`src/parser` and `src/src` only; the `ub_parser`
generation has no unary level). -/
inductive UnaryOpKind where
  | neg | not | addrOf | deref
deriving Repr, DecidableEq

/-- A recorded diagnostic.  The contents of chumsky's `Simple` error (span,
expected set, found token) are not needed by any claim below; only presence or
absence of diagnostics is modelled. -/
inductive Diag where
  | mk : Diag
deriving Repr, DecidableEq

/-- Result of running a parser on a token stream in state `s`:
success with a value, the updated state and the unconsumed suffix; failure with
the updated state (chumsky backtracks the input, but side effects on the
`ParserState` cell persist); or a process abort (`unwrap` panic). -/
inductive PRes (τ σ α : Type) where
  | ok (a : α) (s : σ) (rest : List (τ × Span))
  | err (s : σ)
  | panic
deriving Repr, DecidableEq

/-- A parser over tokens `τ` with threaded state `σ` producing `α`. -/
def Prs (τ σ α : Type) : Type :=
  σ → List (τ × Span) → PRes τ σ α

/-- chumsky `just(t)`: consume exactly the token `t` (its output is the token). -/
def pjust {τ σ : Type} [DecidableEq τ] (t : τ) : Prs τ σ τ :=
  fun s ts =>
    match ts with
    | (t', _) :: rest => if t' = t then .ok t' s rest else .err s
    | [] => .err s

/-- chumsky `end()`: succeed (consuming nothing) exactly at end of input. -/
def pEnd {τ σ : Type} : Prs τ σ Unit :=
  fun s ts =>
    match ts with
    | [] => .ok () s []
    | _ :: _ => .err s

/-- chumsky `a.then(b)`. -/
def pthen {τ σ α β : Type} (p : Prs τ σ α) (q : Prs τ σ β) : Prs τ σ (α × β) :=
  fun s ts =>
    match p s ts with
    | .ok a s' rest =>
      match q s' rest with
      | .ok b s'' rest' => .ok (a, b) s'' rest'
      | .err s'' => .err s''
      | .panic => .panic
    | .err s' => .err s'
    | .panic => .panic

/-- chumsky `p.map(f)` (pure `f`). -/
def pmap {τ σ α β : Type} (p : Prs τ σ α) (f : α → β) : Prs τ σ β :=
  fun s ts =>
    match p s ts with
    | .ok a s' rest => .ok (f a) s' rest
    | .err s' => .err s'
    | .panic => .panic

/-- chumsky `p.map(f)` where the Rust closure `f` also calls
`ParserState::next_id` (so it reads and updates the state). -/
def pmapS {τ σ α β : Type} (p : Prs τ σ α) (f : α → σ → β × σ) : Prs τ σ β :=
  fun s ts =>
    match p s ts with
    | .ok a s' rest =>
      let (b, s'') := f a s'
      .ok b s'' rest
    | .err s' => .err s'
    | .panic => .panic

/-- chumsky `a.ignore_then(b)`. -/
def pignoreThen {τ σ α β : Type} (p : Prs τ σ α) (q : Prs τ σ β) : Prs τ σ β :=
  pmap (pthen p q) Prod.snd

/-- chumsky `a.then_ignore(b)`. -/
def pthenIgnore {τ σ α β : Type} (p : Prs τ σ α) (q : Prs τ σ β) : Prs τ σ α :=
  pmap (pthen p q) Prod.fst

/-- chumsky `a.or(b)`: full backtracking on the input; the state produced by
the failed first alternative is passed on (a `Cell` is not rolled back). -/
def por {τ σ α : Type} (p q : Prs τ σ α) : Prs τ σ α :=
  fun s ts =>
    match p s ts with
    | .ok a s' rest => .ok a s' rest
    | .err s' => q s' ts
    | .panic => .panic

/-- chumsky `p.or_not()`. -/
def porNot {τ σ α : Type} (p : Prs τ σ α) : Prs τ σ (Option α) :=
  fun s ts =>
    match p s ts with
    | .ok a s' rest => .ok (some a) s' rest
    | .err s' => .ok none s' ts
    | .panic => .panic

/-- Fuelled worker for `pmany`.  chumsky's `repeated()` loops until the inner
parser fails; every success of the inner parsers below consumes at least one
token, so fuel `ts.length + 1` never runs out on the recursions that actually
occur. -/
def pmanyF {τ σ α : Type} (p : Prs τ σ α) : Nat → Prs τ σ (List α)
  | 0 => fun s _ => .ok [] s []
  | fuel + 1 => fun s ts =>
    match p s ts with
    | .ok a s' rest =>
      match pmanyF p fuel s' rest with
      | .ok as s'' rest' => .ok (a :: as) s'' rest'
      | .err s'' => .err s''
      | .panic => .panic
    | .err s' => .ok [] s' ts
    | .panic => .panic

/-- chumsky `p.repeated()` (zero or more, greedy, backtracking the failed
final attempt). -/
def pmany {τ σ α : Type} (p : Prs τ σ α) : Prs τ σ (List α) :=
  fun s ts => pmanyF p (ts.length + 1) s ts

/-- chumsky `p.delimited_by(just(l), just(r))`. -/
def pdelimitedBy {τ σ α : Type} [DecidableEq τ] (p : Prs τ σ α) (l r : τ) :
    Prs τ σ α :=
  pthenIgnore (pignoreThen (pjust l) p) (pjust r)

/-- chumsky `p.separated_by(sep)` (zero or more items), with
`.allow_trailing()` when `trailing` is set: `(p (sep p)* sep?)?`. -/
def psepBy {τ σ α β : Type} (p : Prs τ σ α) (sep : Prs τ σ β)
    (trailing : Bool) : Prs τ σ (List α) :=
  let one := pthen p (pmany (pignoreThen sep p))
  let one' := if trailing then pthenIgnore one (porNot sep) else one
  fun s ts =>
    match one' s ts with
    | .ok (a, as) s' rest => .ok (a :: as) s' rest
    | .err s' => .ok [] s' ts
    | .panic => .panic

/-- chumsky `a.then(b.repeated()).foldl(f)` with a pure fold closure. -/
def pfoldl {τ σ α β : Type} (p : Prs τ σ α) (q : Prs τ σ β)
    (f : α → β → α) : Prs τ σ α :=
  pmap (pthen p (pmany q)) (fun ab => ab.2.foldl f ab.1)

/-- chumsky `a.then(b.repeated()).foldl(f)` where the Rust fold closure also
calls `ParserState::next_id`: the collected repetitions are folded left to
right, threading the state in that order. -/
def pfoldlS {τ σ α β : Type} (p : Prs τ σ α) (q : Prs τ σ β)
    (f : α → β → σ → α × σ) : Prs τ σ α :=
  pmapS (pthen p (pmany q))
    (fun ab s => ab.2.foldl (fun as b => f as.1 b as.2) (ab.1, s))

/-- Span of the last token of a non-empty consumed run (helper for
`consumedSpan`). -/
def lastSpan {τ : Type} (sp : Span) : List (τ × Span) → Span
  | [] => sp
  | (_, sp') :: rest => lastSpan sp' rest

/-- The span chumsky's `map_with_span` hands to its closure: from the start of
the first consumed token to the end of the last one.  No use of
`map_with_span` in the three parsers is reachable with zero tokens consumed,
so the empty-consumption fallback (an empty span at the current position) is
never exercised by the claims below. -/
def consumedSpan {τ : Type} (ts rest : List (τ × Span)) : Span :=
  match ts.take (ts.length - rest.length) with
  | [] =>
    match ts with
    | (_, sp) :: _ => ⟨sp.start, sp.start⟩
    | [] => ⟨0, 0⟩
  | (_, sp) :: more => ⟨sp.start, (lastSpan sp more).stop⟩

/-- chumsky `p.map_with_span(f)` (pure closure). -/
def pmapWithSpan {τ σ α β : Type} (p : Prs τ σ α) (f : α → Span → β) :
    Prs τ σ β :=
  fun s ts =>
    match p s ts with
    | .ok a s' rest => .ok (f a (consumedSpan ts rest)) s' rest
    | .err s' => .err s'
    | .panic => .panic

/-- chumsky `p.map_with_span(f)` where the closure also calls
`ParserState::next_id`. -/
def pmapWithSpanS {τ σ α β : Type} (p : Prs τ σ α) (f : α → Span → σ → β × σ) :
    Prs τ σ β :=
  fun s ts =>
    match p s ts with
    | .ok a s' rest =>
      let (b, s'') := f a (consumedSpan ts rest) s'
      .ok b s'' rest
    | .err s' => .err s'
    | .panic => .panic

/-- Model of `str[1 .. str.len() - 2]` applied to a string-literal token's
text (byte slicing modelled on the character list): drop one character at the
front, keep `len - 3` characters. -/
def strTrim (cs : List Char) : List Char :=
  (cs.drop 1).take (cs.length - 2 - 1)

/-- Model of `str::parse::<u64>()` as called on an integer-literal token: the
lexed text is a decimal digit sequence; the conversion fails when the value
exceeds `u64::MAX` (and on empty or non-digit input). -/
def u64FromStr (cs : List Char) : Option Nat :=
  if cs = [] then none
  else if cs.all (fun c => c.isDigit) then
    let v := cs.foldl (fun acc c => acc * 10 + (c.toNat - 48)) 0
    if v < 2 ^ 64 then some v else none
  else none

/-! ## Generation 1: `src/parser/src/parser.rs` -/

namespace Gen1

/-- Token vocabulary of the external lexer (spec §6); `Integer` and `String`
tokens carry the lexed text (`&str` payloads modelled as character lists),
identifiers carry their name. -/
inductive Tok where
  | Ident (name : String)
  | Integer (digits : List Char)
  | String (text : List Char)
  | Plus | Minus | Asterisk | Slash | Bang | Ampersand
  | EqEq | BangEq | Eq
  | Comma | Colon | Semi | Arrow
  | ParenO | ParenC | BraceO | BraceC | BracketO | BracketC
  | Fn | Struct | If | Else | While | Ptr
deriving Repr, DecidableEq

/-- This generation threads no parser state. -/
abbrev P (α : Type) : Type := Prs Tok Unit α

/-- `Literal`: integer literals hold the converted `u64` value. -/
inductive Literal where
  | integer (n : Nat) (sp : Span)
  | string (s : List Char) (sp : Span)
deriving Repr

mutual
/-- `Expr { kind, span }`. -/
inductive Expr where
  | mk : ExprKind → Span → Expr
deriving Repr

/-- `ExprKind`; `Call { callee, args }` and
`UnaryOp { expr, kind, span }` / `BinOp { kind, lhs, rhs, span }` are
flattened into their constructors (operator kind first, then operands,
then the struct's own span field). -/
inductive ExprKind where
  | literal : Literal → ExprKind
  | name : String → ExprKind
  | array : List Expr → ExprKind
  | call : Expr → List Expr → ExprKind
  | unaryOp : UnaryOpKind → Expr → Span → ExprKind
  | binOp : BinOpKind → Expr → Expr → Span → ExprKind
deriving Repr
end

/-- Field accessor `expr.span`. -/
def Expr.span : Expr → Span
  | .mk _ sp => sp

/-- Field accessor `expr.kind`. -/
def Expr.kind : Expr → ExprKind
  | .mk k _ => k

mutual
/-- `Ty { span, kind }`. -/
inductive Ty where
  | mk : Span → TyKind → Ty
deriving Repr

/-- `TyKind`: this generation special-cases the `u64` primitive. -/
inductive TyKind where
  | u64 : TyKind
  | name : String → TyKind
  | ptr : Ty → TyKind
deriving Repr
end

/-- `VarDecl { name, ty, rhs, span }`. -/
structure VarDecl where
  name : String
  ty : Ty
  rhs : Option Expr
  span : Span
deriving Repr

/-- `Assignment { place, rhs, span }`. -/
structure Assignment where
  place : Expr
  rhs : Expr
  span : Span
deriving Repr

mutual
/-- `Stmt`. -/
inductive Stmt where
  | varDecl : VarDecl → Stmt
  | assignment : Assignment → Stmt
  | expr : Expr → Stmt
  | ifStmt : IfStmt → Stmt
  | whileStmt : WhileStmt → Stmt
deriving Repr

/-- `IfStmt { cond, body, else_part, span }`. -/
inductive IfStmt where
  | mk : Expr → List Stmt → Option ElsePart → Span → IfStmt
deriving Repr

/-- `ElsePart::ElseIf(IfStmt)` and `ElsePart::Else(Vec<Stmt>, Span)`. -/
inductive ElsePart where
  | elseIf : IfStmt → ElsePart
  | els : List Stmt → Span → ElsePart
deriving Repr

/-- `WhileStmt { cond, body, span }`. -/
inductive WhileStmt where
  | mk : Expr → List Stmt → Span → WhileStmt
deriving Repr
end

/-- `NameTyPair { name, ty, span }`. -/
structure NameTyPair where
  name : String
  ty : Ty
  span : Span
deriving Repr

/-- `StructDecl { name, fields, span }`. -/
structure StructDecl where
  name : String
  fields : List NameTyPair
  span : Span
deriving Repr

/-- `FnDecl { name, params, ret_ty, span, body }`. -/
structure FnDecl where
  name : String
  params : List NameTyPair
  ret_ty : Option Ty
  span : Span
  body : List Stmt
deriving Repr

/-- `Item`. -/
inductive Item where
  | fnDecl : FnDecl → Item
  | structDecl : StructDecl → Item
deriving Repr

/-- `File { name, items }` (the `PathBuf` file name modelled as a string). -/
structure File where
  name : String
  items : List Item
deriving Repr

/-- `ident_parser`: `select! { Token::Ident(ident) => ident.to_owned() }`. -/
def identP : P String :=
  fun s ts =>
    match ts with
    | (Tok.Ident name, _) :: rest => .ok name s rest
    | _ :: _ => .err s
    | [] => .err s

/-- `ty_parser` (fuelled for the `ptr <ty>` self-recursion):
`primitive.or(ptr).or(name)` where `primitive` accepts exactly the
identifier `u64`. -/
def tyP : Nat → P Ty
  | 0 => fun s _ => .err s
  | fuel + 1 =>
    let primitive : P Ty := fun s ts =>
      match ts with
      | (Tok.Ident "u64", sp) :: rest => .ok (Ty.mk sp .u64) s rest
      | _ :: _ => .err s
      | [] => .err s
    let ptr : P Ty :=
      pmapWithSpan (pignoreThen (pjust Tok.Ptr) (tyP fuel))
        (fun t sp => Ty.mk sp (.ptr t))
    let nameTy : P Ty :=
      pmapWithSpan identP (fun n sp => Ty.mk sp (.name n))
    por primitive (por ptr nameTy)

/-- The binary-fold closure shared (textually identical in the source) by the
product, sum and compare levels:
`span = a.span.start .. b.span.end`, node `BinOp { kind, lhs: a, rhs: b, span }`. -/
def mkBinOp (kind : BinOpKind) (a b : Expr) : Expr :=
  let sp : Span := ⟨a.span.start, b.span.stop⟩
  Expr.mk (.binOp kind a b sp) sp

/-- The `call` fold closure:
`span = callee.span.start .. args.last().map(|e| e.span.end).unwrap_or(callee.span.end)`. -/
def mkCall (callee : Expr) (args : List Expr) : Expr :=
  let sp : Span :=
    ⟨callee.span.start, ((args.getLast?).map (fun e => e.span.stop)).getD callee.span.stop⟩
  Expr.mk (.call callee args) sp

/-- `expr_parser`, fuelled for the `recursive(|expr| …)` knot (the ladder
itself — atom, call, unary, product, sum, compare — descends structurally;
only the re-entries through `[…]`, `(…)` and argument lists spend fuel). -/
def exprP : Nat → P Expr
  | 0 => fun s _ => .err s
  | fuel + 1 =>
    let expr := exprP fuel
    -- `literal`: string trimming `str[1..str.len() - 2]`; integer conversion
    -- `int.parse().unwrap()` — a failing conversion panics.
    let literal : P Expr := fun s ts =>
      match ts with
      | (Tok.String str, sp) :: rest =>
        .ok (Expr.mk (.literal (.string (strTrim str) sp)) sp) s rest
      | (Tok.Integer int, sp) :: rest =>
        match u64FromStr int with
        | some n => .ok (Expr.mk (.literal (.integer n sp)) sp) s rest
        | none => .panic
      | _ :: _ => .err s
      | [] => .err s
    let exprList : P (List Expr) :=
      pmap (porNot (psepBy expr (pjust Tok.Comma) true)) (fun o => o.getD [])
    let array : P Expr :=
      pmapWithSpan (pdelimitedBy exprList Tok.BracketO Tok.BracketC)
        (fun exprs sp => Expr.mk (.array exprs) sp)
    let atom : P Expr :=
      por literal
        (por (pmapWithSpan identP (fun name sp => Expr.mk (.name name) sp))
          (por array (pdelimitedBy expr Tok.ParenO Tok.ParenC)))
    let call : P Expr :=
      pfoldl atom (pdelimitedBy exprList Tok.ParenO Tok.ParenC) mkCall
    let unaryOpKind : P UnaryOpKind :=
      por (pmap (pjust Tok.Minus) (fun _ => UnaryOpKind.neg))
        (por (pmap (pjust Tok.Bang) (fun _ => UnaryOpKind.not))
          (por (pmap (pjust Tok.Ampersand) (fun _ => UnaryOpKind.addrOf))
            (pmap (pjust Tok.Asterisk) (fun _ => UnaryOpKind.deref))))
    -- `unary`: ops.repeated().then(call).foldr — span = rhs.span (the span of
    -- the expression being folded, not operator-expanded).
    let unary : P Expr :=
      pmap (pthen (pmany unaryOpKind) call)
        (fun p =>
          p.1.foldr
            (fun kind rhs => Expr.mk (.unaryOp kind rhs rhs.span) rhs.span)
            p.2)
    let mulOp : P BinOpKind :=
      por (pmap (pjust Tok.Asterisk) (fun _ => BinOpKind.mul))
        (pmap (pjust Tok.Slash) (fun _ => BinOpKind.div))
    let product : P Expr :=
      pfoldl unary (pthen mulOp unary) (fun a kb => mkBinOp kb.1 a kb.2)
    let sumOp : P BinOpKind :=
      por (pmap (pjust Tok.Plus) (fun _ => BinOpKind.add))
        (pmap (pjust Tok.Minus) (fun _ => BinOpKind.sub))
    let sum : P Expr :=
      pfoldl product (pthen sumOp product) (fun a kb => mkBinOp kb.1 a kb.2)
    let cmpOp : P BinOpKind :=
      por (pmap (pjust Tok.EqEq) (fun _ => BinOpKind.eq))
        (pmap (pjust Tok.BangEq) (fun _ => BinOpKind.neq))
    let compare : P Expr :=
      pfoldl sum (pthen cmpOp sum) (fun a kb => mkBinOp kb.1 a kb.2)
    compare

/-- The inner `recursive(|if_stmt| …)` of `statement_parser`, parameterised by
the enclosing `block` and expression parsers and fuelled for the
else-if chain. -/
def ifStmtP (block : P (List Stmt)) (expr : P Expr) : Nat → P IfStmt
  | 0 => fun s _ => .err s
  | fuel + 1 =>
    pmapWithSpan
      (pthen (pthen (pignoreThen (pjust Tok.If) expr) block)
        (porNot (pignoreThen (pjust Tok.Else)
          (por (pmap (ifStmtP block expr fuel) (fun i => ElsePart.elseIf i))
            (pmapWithSpan block (fun b sp => ElsePart.els b sp))))))
      (fun cbe sp => IfStmt.mk cbe.1.1 cbe.1.2 cbe.2 sp)

/-- `statement_parser` (fuelled for the `recursive(|stmt| …)` knot through
blocks): `var_decl.or(assignment).or(expr ';').or(if_stmt).or(while_loop)`. -/
def stmtP : Nat → P Stmt
  | 0 => fun s _ => .err s
  | fuel + 1 =>
    let stmt := stmtP fuel
    let varDecl : P Stmt :=
      pmap
        (pthenIgnore
          (pthen (pthen (tyP (fuel + 1)) identP)
            (pignoreThen (pjust Tok.Eq) (exprP (fuel + 1))))
          (pjust Tok.Semi))
        (fun tnr =>
          Stmt.varDecl
            { name := tnr.1.2, ty := tnr.1.1, rhs := some tnr.2, span := ⟨0, 0⟩ })
    let assignment : P Stmt :=
      pmap
        (pthenIgnore
          (pthen (pthenIgnore (exprP (fuel + 1)) (pjust Tok.Eq)) (exprP (fuel + 1)))
          (pjust Tok.Semi))
        (fun pr => Stmt.assignment { place := pr.1, rhs := pr.2, span := ⟨0, 0⟩ })
    let block : P (List Stmt) :=
      pdelimitedBy (pmany stmt) Tok.BraceO Tok.BraceC
    let whileLoop : P Stmt :=
      pmapWithSpan (pthen (pignoreThen (pjust Tok.While) (exprP (fuel + 1))) block)
        (fun cb sp => Stmt.whileStmt (WhileStmt.mk cb.1 cb.2 sp))
    let ifS : P Stmt :=
      pmap (ifStmtP block (exprP (fuel + 1)) (fuel + 1)) Stmt.ifStmt
    por varDecl
      (por assignment
        (por (pmap (pthenIgnore (exprP (fuel + 1)) (pjust Tok.Semi)) Stmt.expr)
          (por ifS whileLoop)))

/-- `name_ty_pair_parser`: `ident ':' ty`. -/
def nameTyPairP (fuel : Nat) : P NameTyPair :=
  pmapWithSpan (pthen (pthenIgnore identP (pjust Tok.Colon)) (tyP fuel))
    (fun nt sp => { name := nt.1, ty := nt.2, span := sp })

/-- `struct_parser`: `struct` name `{` fields `}` (comma-separated, no
trailing comma). -/
def structP (fuel : Nat) : P StructDecl :=
  pmap
    (pthen (pignoreThen (pjust Tok.Struct) identP)
      (pdelimitedBy (psepBy (nameTyPairP fuel) (pjust Tok.Comma) false)
        Tok.BraceO Tok.BraceC))
    (fun nf => { name := nf.1, fields := nf.2, span := ⟨0, 0⟩ })

/-- `item_parser`: a function declaration or a struct declaration. -/
def itemP (fuel : Nat) : P Item :=
  let params : P (List NameTyPair) :=
    pdelimitedBy (psepBy (nameTyPairP fuel) (pjust Tok.Comma) true)
      Tok.ParenO Tok.ParenC
  let retTy : P (Option Ty) := porNot (pignoreThen (pjust Tok.Arrow) (tyP fuel))
  let function : P FnDecl :=
    pmapWithSpan
      (pthen
        (pthen (pthen (pignoreThen (pjust Tok.Fn) identP) params) retTy)
        (pdelimitedBy (pmany (stmtP fuel)) Tok.BraceO Tok.BraceC))
      (fun nprb sp =>
        { name := nprb.1.1.1, params := nprb.1.1.2, ret_ty := nprb.1.2,
          span := sp, body := nprb.2 })
  por (pmap function Item.fnDecl) (pmap (structP fuel) Item.structDecl)

/-- `file_parser`: `item*` followed by an explicit end-of-input check. -/
def fileP (fileName : String) (fuel : Nat) : P File :=
  pmap (pthenIgnore (pmany (itemP fuel)) pEnd)
    (fun items => { name := fileName, items := items })

/-- `parse`: run the file parser with `parse_recovery_verbose`.  `none`
models a process abort from the literal-conversion `unwrap`; otherwise the
result is the optional tree plus the diagnostics (none of the parsers install
a recovery strategy, so success yields an empty diagnostic list and failure
yields an absent tree plus a diagnostic).  Fuel `ts.length + 1` covers every
recursion, each of which consumes at least one token before re-entering. -/
def parse (ts : List (Tok × Span)) (fileName : String) :
    Option (Option File × List Diag) :=
  match fileP fileName (ts.length + 1) () ts with
  | .ok f _ _ => some (some f, [])
  | .err _ => some (none, [Diag.mk])
  | .panic => none

end Gen1

/-! ## Generation 3: `src/ub_parser/src/parser.rs`

AST shapes for every generation are reconstructed from their construction
sites inside the parsers (the `ast` modules live outside the extracted
sources) together with the spec's §3 data model; every field that a claim
touches is pinned down by a construction expression in the parser itself. -/

namespace Gen3

/-- This generation's token type is the same lexer interface as `Gen1.Tok`;
it threads no parser state. -/
abbrev P (α : Type) : Type := Prs Gen1.Tok Unit α

/-- `Literal`: `Integer(u64, Span)` or `String(String, Span)`. -/
inductive Literal where
  | integer (n : Nat) (sp : Span)
  | string (s : List Char) (sp : Span)
deriving Repr

/-- `Expr`: a direct enum in this generation — no per-node span or id; only
literals and `BinOp { kind, lhs, rhs, span }` carry spans. -/
inductive Expr where
  | literal : Literal → Expr
  | name : String → Expr
  | array : List Expr → Expr
  | call : Expr → List Expr → Expr
  | binOp : BinOpKind → Expr → Expr → Span → Expr
deriving Repr

/-- `TyKind`: the `ub_parser` type grammar only ever constructs `U64`. -/
inductive TyKind where
  | u64 : TyKind
deriving Repr

/-- `Ty { span, kind }`. -/
structure Ty where
  span : Span
  kind : TyKind
deriving Repr

/-- `VarDecl { name, ty, rhs, span }`. -/
structure VarDecl where
  name : String
  ty : Ty
  rhs : Option Expr
  span : Span
deriving Repr

/-- `Assignment { place, rhs, span }`. -/
structure Assignment where
  place : Expr
  rhs : Expr
  span : Span
deriving Repr

/-- `NameTyPair { name, ty, span }`. -/
structure NameTyPair where
  name : String
  ty : Ty
  span : Span
deriving Repr

/-- `StructDecl { name, fields, span }`. -/
structure StructDecl where
  name : String
  fields : List NameTyPair
  span : Span
deriving Repr

mutual
/-- `Stmt`; this generation has the `Item` variant (nested items in statement
position). -/
inductive Stmt where
  | varDecl : VarDecl → Stmt
  | assignment : Assignment → Stmt
  | expr : Expr → Stmt
  | item : Item → Stmt
deriving Repr

/-- `FnDecl { name, params, ret_ty, span, body }`; `span` is the span of the
`fn` keyword alone. -/
inductive FnDecl where
  | mk : String → List NameTyPair → Option Ty → Span → List Stmt → FnDecl
deriving Repr

/-- `Item`. -/
inductive Item where
  | fnDecl : FnDecl → Item
  | structDecl : StructDecl → Item
deriving Repr
end

/-- `File { name, items }`. -/
structure File where
  name : String
  items : List Item
deriving Repr

/-- `ident_parser` (`filter_map` on `Token::Ident`). -/
def identP : P String :=
  fun s ts =>
    match ts with
    | (Gen1.Tok.Ident name, _) :: rest => .ok name s rest
    | _ :: _ => .err s
    | [] => .err s

/-- `ty_parser`: accepts exactly the identifier `u64`. -/
def tyP : P Ty :=
  fun s ts =>
    match ts with
    | (Gen1.Tok.Ident "u64", sp) :: rest => .ok { span := sp, kind := .u64 } s rest
    | _ :: _ => .err s
    | [] => .err s

/-- The binary-fold closure of all three ladder levels in this generation:
the node's span is hardcoded `0..0` (the source comment reads `lol todo`). -/
def mkBinOp (kind : BinOpKind) (a b : Expr) : Expr :=
  Expr.binOp kind a b ⟨0, 0⟩

/-- `expr_parser` (fuelled for the `recursive(|expr| …)` knot). -/
def exprP : Nat → P Expr
  | 0 => fun s _ => .err s
  | fuel + 1 =>
    let expr := exprP fuel
    let literal : P Expr := fun s ts =>
      match ts with
      | (Gen1.Tok.String str, sp) :: rest =>
        .ok (Expr.literal (.string (strTrim str) sp)) s rest
      | (Gen1.Tok.Integer int, sp) :: rest =>
        match u64FromStr int with
        | some n => .ok (Expr.literal (.integer n sp)) s rest
        | none => .panic
      | _ :: _ => .err s
      | [] => .err s
    -- `items`: `expr.chain((just(Comma).ignore_then(expr)).repeated())
    --   .then_ignore(just(Comma).or_not()).or_not().map(unwrap_or_default)`
    let items : P (List Expr) :=
      pmap
        (porNot
          (pthenIgnore
            (pmap (pthen expr (pmany (pignoreThen (pjust Gen1.Tok.Comma) expr)))
              (fun hd => hd.1 :: hd.2))
            (porNot (pjust Gen1.Tok.Comma))))
        (fun o => o.getD [])
    let array : P Expr :=
      pmap (pdelimitedBy items Gen1.Tok.BracketO Gen1.Tok.BracketC) Expr.array
    let atom : P Expr :=
      por literal
        (por (pmap identP Expr.name)
          (por array (pdelimitedBy expr Gen1.Tok.ParenO Gen1.Tok.ParenC)))
    let call : P Expr :=
      pfoldl atom (pdelimitedBy items Gen1.Tok.ParenO Gen1.Tok.ParenC)
        (fun callee args => Expr.call callee args)
    let mulOp : P BinOpKind :=
      por (pmap (pjust Gen1.Tok.Asterisk) (fun _ => BinOpKind.mul))
        (pmap (pjust Gen1.Tok.Slash) (fun _ => BinOpKind.div))
    -- no unary level in this generation: product sits directly on call
    let product : P Expr :=
      pfoldl call (pthen mulOp call) (fun a kb => mkBinOp kb.1 a kb.2)
    let sumOp : P BinOpKind :=
      por (pmap (pjust Gen1.Tok.Plus) (fun _ => BinOpKind.add))
        (pmap (pjust Gen1.Tok.Minus) (fun _ => BinOpKind.sub))
    let sum : P Expr :=
      pfoldl product (pthen sumOp product) (fun a kb => mkBinOp kb.1 a kb.2)
    let cmpOp : P BinOpKind :=
      por (pmap (pjust Gen1.Tok.EqEq) (fun _ => BinOpKind.eq))
        (pmap (pjust Gen1.Tok.BangEq) (fun _ => BinOpKind.neq))
    let compare : P Expr :=
      pfoldl sum (pthen cmpOp sum) (fun a kb => mkBinOp kb.1 a kb.2)
    compare

/-- `statement_parser(item)`: `(var_decl | assignment | expr | item) ';'` —
the statement terminator applies to the whole alternative chain, including a
nested item used as a statement. -/
def stmtP (item : P Item) (fuel : Nat) : P Stmt :=
  let varDecl : P Stmt :=
    pmap
      (pthen (pthen tyP identP) (pignoreThen (pjust Gen1.Tok.Eq) (exprP fuel)))
      (fun tnr =>
        Stmt.varDecl
          { name := tnr.1.2, ty := tnr.1.1, rhs := some tnr.2, span := ⟨0, 0⟩ })
  let assignment : P Stmt :=
    pmap (pthen (pthenIgnore (exprP fuel) (pjust Gen1.Tok.Eq)) (exprP fuel))
      (fun pr => Stmt.assignment { place := pr.1, rhs := pr.2, span := ⟨0, 0⟩ })
  pthenIgnore
    (por varDecl
      (por assignment
        (por (pmap (exprP fuel) Stmt.expr) (pmap item Stmt.item))))
    (pjust Gen1.Tok.Semi)

/-- `name_ty_pair_parser`. -/
def nameTyPairP : P NameTyPair :=
  pmapWithSpan (pthen (pthenIgnore identP (pjust Gen1.Tok.Colon)) tyP)
    (fun nt sp => { name := nt.1, ty := nt.2, span := sp })

/-- `function_parser(item)`; the `fn` keyword's span becomes the decl's span. -/
def functionP (item : P Item) (fuel : Nat) : P FnDecl :=
  let params : P (List NameTyPair) :=
    pdelimitedBy (psepBy nameTyPairP (pjust Gen1.Tok.Comma) true)
      Gen1.Tok.ParenO Gen1.Tok.ParenC
  let retTy : P (Option Ty) := porNot (pignoreThen (pjust Gen1.Tok.Arrow) tyP)
  pmap
    (pthen
      (pthen
        (pthen (pthen (pmapWithSpan (pjust Gen1.Tok.Fn) (fun _ sp => sp)) identP)
          params)
        retTy)
      (pdelimitedBy (pmany (stmtP item fuel)) Gen1.Tok.BraceO Gen1.Tok.BraceC))
    (fun fnprb =>
      FnDecl.mk fnprb.1.1.1.2 fnprb.1.1.2 fnprb.1.2 fnprb.1.1.1.1 fnprb.2)

/-- `struct_parser`. -/
def structP : P StructDecl :=
  pmap
    (pthen (pignoreThen (pjust Gen1.Tok.Struct) identP)
      (pdelimitedBy (psepBy nameTyPairP (pjust Gen1.Tok.Comma) false)
        Gen1.Tok.BraceO Gen1.Tok.BraceC))
    (fun nf => { name := nf.1, fields := nf.2, span := ⟨0, 0⟩ })

/-- `item_parser`: `recursive(|item| function(item) | struct)` (fuelled for
the nested-item knot). -/
def itemP : Nat → P Item
  | 0 => fun s _ => .err s
  | fuel + 1 =>
    por (pmap (functionP (itemP fuel) (fuel + 1)) Item.fnDecl)
      (pmap structP Item.structDecl)

/-- `file_parser`: `item_parser().repeated().map(File)` — note the absence of
an end-of-input check. -/
def fileP (fileName : String) (fuel : Nat) : P File :=
  pmap (pmany (itemP fuel)) (fun items => { name := fileName, items := items })

/-- `parse` (`parse_recovery_verbose`), as in `Gen1.parse`. -/
def parse (ts : List (Gen1.Tok × Span)) (fileName : String) :
    Option (Option File × List Diag) :=
  match fileP fileName (ts.length + 1) () ts with
  | .ok f _ _ => some (some f, [])
  | .err _ => some (none, [Diag.mk])
  | .panic => none

end Gen3

/-- chumsky `a.repeated().then(b).foldr(f)` where the Rust fold closure also
calls `ParserState::next_id`: the collected items are folded right to left
(the innermost node is built first), threading the state in that order. -/
def pfoldrS {τ σ α β : Type} (p : Prs τ σ α) (q : Prs τ σ β)
    (f : α → β → σ → β × σ) : Prs τ σ β :=
  pmapS (pthen (pmany p) q)
    (fun ob s => ob.1.foldr (fun a bs => f a bs.1 bs.2) (ob.2, s))

/-! ## Generation 2: `src/src/parser.rs` -/

namespace Gen2

/-- `NodeId` (a `u32` newtype). -/
abbrev NodeId : Type := Nat

/-- `ParserState { next_id: Cell<u32> }`. -/
structure ParserState where
  nextId : Nat
deriving Repr, DecidableEq

/-- `ParserState::next_id`: return the current counter and store its
successor; the counter is a `u32`, so the increment wraps at `2 ^ 32`. -/
def ParserState.callNextId (s : ParserState) : NodeId × ParserState :=
  (s.nextId, ⟨(s.nextId + 1) % 2 ^ 32⟩)

/-- Token vocabulary of this generation's lexer: integer literals arrive
already converted to a `u64` value, and the `let` keyword exists for
variable declarations. -/
inductive Tok where
  | Ident (name : String)
  | Integer (n : Nat)
  | String (text : List Char)
  | Plus | Minus | Asterisk | Slash | Bang | Ampersand
  | EqEq | BangEq | Eq
  | Comma | Colon | Semi | Arrow
  | ParenO | ParenC | BraceO | BraceC | BracketO | BracketC
  | Fn | Struct | If | Else | While | Ptr | Let
deriving Repr, DecidableEq

/-- The `ParserState` is threaded through every parser of this generation. -/
abbrev P (α : Type) : Type := Prs Tok ParserState α

/-- `Literal`. -/
inductive Literal where
  | integer (n : Nat) (sp : Span)
  | string (s : List Char) (sp : Span)
deriving Repr

mutual
/-- `Expr { kind, id, span }`. -/
inductive Expr where
  | mk : ExprKind → NodeId → Span → Expr
deriving Repr

/-- `ExprKind`, flattened as in `Gen1.ExprKind`. -/
inductive ExprKind where
  | literal : Literal → ExprKind
  | name : String → ExprKind
  | array : List Expr → ExprKind
  | call : Expr → List Expr → ExprKind
  | unaryOp : UnaryOpKind → Expr → Span → ExprKind
  | binOp : BinOpKind → Expr → Expr → Span → ExprKind
deriving Repr
end

/-- Field accessor `expr.span`. -/
def Expr.span : Expr → Span
  | .mk _ _ sp => sp

/-- Field accessor `expr.kind`. -/
def Expr.kind : Expr → ExprKind
  | .mk k _ _ => k

/-- Field accessor `expr.id`. -/
def Expr.id : Expr → NodeId
  | .mk _ i _ => i

mutual
/-- `Ty { span, kind }`. -/
inductive Ty where
  | mk : Span → TyKind → Ty
deriving Repr

/-- `TyKind`: no `U64` special case in this generation — a bare name is
always `Name`. -/
inductive TyKind where
  | name : String → TyKind
  | ptr : Ty → TyKind
deriving Repr
end

/-- `VarDecl { name, ty, rhs, span }` — type and initializer are both
independently optional (`let`-form declaration). -/
structure VarDecl where
  name : String
  ty : Option Ty
  rhs : Option Expr
  span : Span
deriving Repr

/-- `Assignment { place, rhs, span }`. -/
structure Assignment where
  place : Expr
  rhs : Expr
  span : Span
deriving Repr

mutual
/-- `Stmt`. -/
inductive Stmt where
  | varDecl : VarDecl → Stmt
  | assignment : Assignment → Stmt
  | expr : Expr → Stmt
  | ifStmt : IfStmt → Stmt
  | whileStmt : WhileStmt → Stmt
deriving Repr

/-- `IfStmt { cond, body, else_part, span }`. -/
inductive IfStmt where
  | mk : Expr → List Stmt → Option ElsePart → Span → IfStmt
deriving Repr

/-- `ElsePart`. -/
inductive ElsePart where
  | elseIf : IfStmt → ElsePart
  | els : List Stmt → Span → ElsePart
deriving Repr

/-- `WhileStmt { cond, body, span }`. -/
inductive WhileStmt where
  | mk : Expr → List Stmt → Span → WhileStmt
deriving Repr
end

/-- `NameTyPair { name, ty, id, span }`. -/
structure NameTyPair where
  name : String
  ty : Ty
  id : NodeId
  span : Span
deriving Repr

/-- `StructDecl { name, fields, id, span }`. -/
structure StructDecl where
  name : String
  fields : List NameTyPair
  id : NodeId
  span : Span
deriving Repr

/-- `FnDecl { name, params, ret_ty, id, span, body }`. -/
structure FnDecl where
  name : String
  params : List NameTyPair
  ret_ty : Option Ty
  id : NodeId
  span : Span
  body : List Stmt
deriving Repr

/-- `Item`. -/
inductive Item where
  | fnDecl : FnDecl → Item
  | structDecl : StructDecl → Item
deriving Repr

/-- `File { name, items }`. -/
structure File where
  name : String
  items : List Item
deriving Repr

/-- `ident_parser`. -/
def identP : P String :=
  fun s ts =>
    match ts with
    | (Tok.Ident name, _) :: rest => .ok name s rest
    | _ :: _ => .err s
    | [] => .err s

/-- `ty_parser`: the `primitive` branch of this generation maps any
identifier to `TyKind::Name`, so the later `name` branch is unreachable; the
`ptr` alternative still handles pointer types. -/
def tyP : Nat → P Ty
  | 0 => fun s _ => .err s
  | fuel + 1 =>
    let primitive : P Ty := fun s ts =>
      match ts with
      | (Tok.Ident name, sp) :: rest => .ok (Ty.mk sp (.name name)) s rest
      | _ :: _ => .err s
      | [] => .err s
    let ptr : P Ty :=
      pmapWithSpan (pignoreThen (pjust Tok.Ptr) (tyP fuel))
        (fun t sp => Ty.mk sp (.ptr t))
    let nameTy : P Ty :=
      pmapWithSpan identP (fun n sp => Ty.mk sp (.name n))
    por primitive (por ptr nameTy)

/-- The binary-fold closure of the product, sum and compare levels:
`span = a.span.start .. b.span.end` and a fresh node id. -/
def mkBinOp (kind : BinOpKind) (a b : Expr) (s : ParserState) :
    Expr × ParserState :=
  let sp : Span := ⟨a.span.start, b.span.stop⟩
  let (i, s') := s.callNextId
  (Expr.mk (.binOp kind a b sp) i sp, s')

/-- The `call` fold closure (span rule as in `Gen1.mkCall`, plus a fresh id). -/
def mkCall (callee : Expr) (args : List Expr) (s : ParserState) :
    Expr × ParserState :=
  let sp : Span :=
    ⟨callee.span.start, ((args.getLast?).map (fun e => e.span.stop)).getD callee.span.stop⟩
  let (i, s') := s.callNextId
  (Expr.mk (.call callee args) i sp, s')

/-- `expr_parser(state)` (fuelled for the `recursive(|expr| …)` knot). -/
def exprP : Nat → P Expr
  | 0 => fun s _ => .err s
  | fuel + 1 =>
    let expr := exprP fuel
    -- `literal`: the integer token already carries the converted value; the
    -- string token is trimmed `str[1..str.len() - 2]`; a fresh id on success.
    let literal : P Expr := fun s ts =>
      match ts with
      | (Tok.String str, sp) :: rest =>
        let (i, s') := s.callNextId
        .ok (Expr.mk (.literal (.string (strTrim str) sp)) i sp) s' rest
      | (Tok.Integer n, sp) :: rest =>
        let (i, s') := s.callNextId
        .ok (Expr.mk (.literal (.integer n sp)) i sp) s' rest
      | _ :: _ => .err s
      | [] => .err s
    let exprList : P (List Expr) :=
      pmap (porNot (psepBy expr (pjust Tok.Comma) true)) (fun o => o.getD [])
    let array : P Expr :=
      pmapWithSpanS (pdelimitedBy exprList Tok.BracketO Tok.BracketC)
        (fun exprs sp s =>
          let (i, s') := s.callNextId
          (Expr.mk (.array exprs) i sp, s'))
    let atom : P Expr :=
      por literal
        (por
          (pmapWithSpanS identP
            (fun name sp s =>
              let (i, s') := s.callNextId
              (Expr.mk (.name name) i sp, s')))
          (por array (pdelimitedBy expr Tok.ParenO Tok.ParenC)))
    let call : P Expr :=
      pfoldlS atom (pdelimitedBy exprList Tok.ParenO Tok.ParenC) mkCall
    let unaryOpKind : P UnaryOpKind :=
      por (pmap (pjust Tok.Minus) (fun _ => UnaryOpKind.neg))
        (por (pmap (pjust Tok.Bang) (fun _ => UnaryOpKind.not))
          (por (pmap (pjust Tok.Ampersand) (fun _ => UnaryOpKind.addrOf))
            (pmap (pjust Tok.Asterisk) (fun _ => UnaryOpKind.deref))))
    let unary : P Expr :=
      pfoldrS unaryOpKind call
        (fun kind rhs s =>
          let (i, s') := s.callNextId
          (Expr.mk (.unaryOp kind rhs rhs.span) i rhs.span, s'))
    let mulOp : P BinOpKind :=
      por (pmap (pjust Tok.Asterisk) (fun _ => BinOpKind.mul))
        (pmap (pjust Tok.Slash) (fun _ => BinOpKind.div))
    let product : P Expr :=
      pfoldlS unary (pthen mulOp unary) (fun a kb s => mkBinOp kb.1 a kb.2 s)
    let sumOp : P BinOpKind :=
      por (pmap (pjust Tok.Plus) (fun _ => BinOpKind.add))
        (pmap (pjust Tok.Minus) (fun _ => BinOpKind.sub))
    let sum : P Expr :=
      pfoldlS product (pthen sumOp product) (fun a kb s => mkBinOp kb.1 a kb.2 s)
    let cmpOp : P BinOpKind :=
      por (pmap (pjust Tok.EqEq) (fun _ => BinOpKind.eq))
        (pmap (pjust Tok.BangEq) (fun _ => BinOpKind.neq))
    let compare : P Expr :=
      pfoldlS sum (pthen cmpOp sum) (fun a kb s => mkBinOp kb.1 a kb.2 s)
    compare

/-- The inner `recursive(|if_stmt| …)` of `statement_parser`. -/
def ifStmtP (block : P (List Stmt)) (expr : P Expr) : Nat → P IfStmt
  | 0 => fun s _ => .err s
  | fuel + 1 =>
    pmapWithSpan
      (pthen (pthen (pignoreThen (pjust Tok.If) expr) block)
        (porNot (pignoreThen (pjust Tok.Else)
          (por (pmap (ifStmtP block expr fuel) (fun i => ElsePart.elseIf i))
            (pmapWithSpan block (fun b sp => ElsePart.els b sp))))))
      (fun cbe sp => IfStmt.mk cbe.1.1 cbe.1.2 cbe.2 sp)

/-- `statement_parser(state)`: the `let`-form declaration with independently
optional type annotation and initializer, then assignment, expression
statement, `if` and `while`. -/
def stmtP : Nat → P Stmt
  | 0 => fun s _ => .err s
  | fuel + 1 =>
    let stmt := stmtP fuel
    let varDecl : P Stmt :=
      pmap
        (pthenIgnore
          (pthen
            (pthen (pignoreThen (pjust Tok.Let) identP)
              (porNot (pignoreThen (pjust Tok.Colon) (tyP (fuel + 1)))))
            (porNot (pignoreThen (pjust Tok.Eq) (exprP (fuel + 1)))))
          (pjust Tok.Semi))
        (fun ntr =>
          Stmt.varDecl
            { name := ntr.1.1, ty := ntr.1.2, rhs := ntr.2, span := ⟨0, 0⟩ })
    let assignment : P Stmt :=
      pmap
        (pthenIgnore
          (pthen (pthenIgnore (exprP (fuel + 1)) (pjust Tok.Eq)) (exprP (fuel + 1)))
          (pjust Tok.Semi))
        (fun pr => Stmt.assignment { place := pr.1, rhs := pr.2, span := ⟨0, 0⟩ })
    let block : P (List Stmt) :=
      pdelimitedBy (pmany stmt) Tok.BraceO Tok.BraceC
    let whileLoop : P Stmt :=
      pmapWithSpan (pthen (pignoreThen (pjust Tok.While) (exprP (fuel + 1))) block)
        (fun cb sp => Stmt.whileStmt (WhileStmt.mk cb.1 cb.2 sp))
    let ifS : P Stmt :=
      pmap (ifStmtP block (exprP (fuel + 1)) (fuel + 1)) Stmt.ifStmt
    por varDecl
      (por assignment
        (por (pmap (pthenIgnore (exprP (fuel + 1)) (pjust Tok.Semi)) Stmt.expr)
          (por ifS whileLoop)))

/-- `name_ty_pair_parser(state)`: allocates a node id. -/
def nameTyPairP (fuel : Nat) : P NameTyPair :=
  pmapWithSpanS (pthen (pthenIgnore identP (pjust Tok.Colon)) (tyP fuel))
    (fun nt sp s =>
      let (i, s') := s.callNextId
      ({ name := nt.1, ty := nt.2, id := i, span := sp }, s'))

/-- `struct_parser(state)`. -/
def structP (fuel : Nat) : P StructDecl :=
  pmapS
    (pthen (pignoreThen (pjust Tok.Struct) identP)
      (pdelimitedBy (psepBy (nameTyPairP fuel) (pjust Tok.Comma) false)
        Tok.BraceO Tok.BraceC))
    (fun nf s =>
      let (i, s') := s.callNextId
      ({ name := nf.1, fields := nf.2, id := i, span := ⟨0, 0⟩ }, s'))

/-- `item_parser(state)`. -/
def itemP (fuel : Nat) : P Item :=
  let params : P (List NameTyPair) :=
    pdelimitedBy (psepBy (nameTyPairP fuel) (pjust Tok.Comma) true)
      Tok.ParenO Tok.ParenC
  let retTy : P (Option Ty) := porNot (pignoreThen (pjust Tok.Arrow) (tyP fuel))
  let function : P FnDecl :=
    pmapWithSpanS
      (pthen
        (pthen (pthen (pignoreThen (pjust Tok.Fn) identP) params) retTy)
        (pdelimitedBy (pmany (stmtP fuel)) Tok.BraceO Tok.BraceC))
      (fun nprb sp s =>
        let (i, s') := s.callNextId
        ({ name := nprb.1.1.1, params := nprb.1.1.2, ret_ty := nprb.1.2,
           id := i, span := sp, body := nprb.2 }, s'))
  por (pmap function Item.fnDecl) (pmap (structP fuel) Item.structDecl)

/-- `file_parser`: `item*` followed by an explicit end-of-input check. -/
def fileP (fileName : String) (fuel : Nat) : P File :=
  pmap (pthenIgnore (pmany (itemP fuel)) pEnd)
    (fun items => { name := fileName, items := items })

/-- `parse`: builds a fresh `ParserState::default()` (counter `0`), runs the
file parser with `parse_recovery_verbose` and pushes each error into the
`Diagnostics` accumulator; the tracked function's value is the optional
tree.  No conversion in this generation can panic. -/
def parse (ts : List (Tok × Span)) (fileName : String) :
    Option File × List Diag :=
  match fileP fileName (ts.length + 1) ⟨0⟩ ts with
  | .ok f _ _ => (some f, [])
  | .err _ => (none, [Diag.mk])
  | .panic => (none, [Diag.mk])

end Gen2

/-! ## Claim-support definitions -/

/-- The `ParserState` after `n` calls to `next_id` within one parse
invocation (which starts from `ParserState::default()`, counter `0`). -/
def stateAfter : Nat → Gen2.ParserState
  | 0 => ⟨0⟩
  | n + 1 => ((stateAfter n).callNextId).2

/-- The `NodeId` returned by the `(n+1)`-st call to `next_id` within one
parse invocation. -/
def idAt (n : Nat) : Gen2.NodeId :=
  ((stateAfter n).callNextId).1

/-- A top-level `struct X { }` item followed by one stray `;` token
(`Gen1`/`Gen3` token stream). -/
def structSemiToks : List (Gen1.Tok × Span) :=
  [(.Struct, ⟨0, 6⟩), (.Ident "X", ⟨7, 8⟩), (.BraceO, ⟨9, 10⟩),
   (.BraceC, ⟨11, 12⟩), (.Semi, ⟨12, 13⟩)]

/-- The same stream for the `Gen2` token type. -/
def structSemiToks2 : List (Gen2.Tok × Span) :=
  [(.Struct, ⟨0, 6⟩), (.Ident "X", ⟨7, 8⟩), (.BraceO, ⟨9, 10⟩),
   (.BraceC, ⟨11, 12⟩), (.Semi, ⟨12, 13⟩)]

/-- A nested function declaration `fn foo2() { }` (no statement terminator). -/
def nestedFnToks : List (Gen1.Tok × Span) :=
  [(.Fn, ⟨0, 2⟩), (.Ident "foo2", ⟨3, 7⟩), (.ParenO, ⟨7, 8⟩), (.ParenC, ⟨8, 9⟩),
   (.BraceO, ⟨10, 11⟩), (.BraceC, ⟨11, 12⟩)]

/-- A nested struct declaration `struct X { }` (no statement terminator). -/
def nestedStructToks : List (Gen1.Tok × Span) :=
  [(.Struct, ⟨0, 6⟩), (.Ident "X", ⟨7, 8⟩), (.BraceO, ⟨9, 10⟩), (.BraceC, ⟨11, 12⟩)]

/-! ## Helper lemmas -/

/-- A successful `pmap` comes from a success of the underlying parser with
the same state and remainder. -/
theorem pmap_ok_rest {τ σ α β : Type} {p : Prs τ σ α} {f : α → β} {s : σ}
    {ts : List (τ × Span)} {b : β} {s' : σ} {rest : List (τ × Span)}
    (h : pmap p f s ts = .ok b s' rest) :
    ∃ a, p s ts = .ok a s' rest := by
  unfold pmap at h
  cases hp : p s ts with
  | ok a s1 r1 =>
    rw [hp] at h
    cases h
    exact ⟨a, rfl⟩
  | err s1 => rw [hp] at h; cases h
  | panic => rw [hp] at h; cases h

/-- A parser sequenced with the chumsky `end()` check can only succeed with
an empty remainder. -/
theorem pthenIgnore_pEnd_ok {τ σ α : Type} {p : Prs τ σ α} {s : σ}
    {ts : List (τ × Span)} {a : α} {s' : σ} {rest : List (τ × Span)}
    (h : pthenIgnore p pEnd s ts = .ok a s' rest) :
    rest = [] := by
  unfold pthenIgnore pmap pthen pEnd at h
  cases hp : p s ts with
  | ok a1 s1 r1 =>
    rw [hp] at h
    cases r1 with
    | nil => cases h; rfl
    | cons hd tl => cases h
  | err s1 => rw [hp] at h; cases h
  | panic => rw [hp] at h; cases h

/-- The string-literal trimming `str[1 .. len - 2]` strips exactly one
leading and exactly two trailing characters. -/
theorem strTrim_concat (a : Char) (mid : List Char) (b c : Char) :
    strTrim (a :: mid ++ [b, c]) = mid := by
  unfold strTrim
  simp [List.length_append]

/-- Closed form of the node-id counter: after `n` calls it holds `n % 2^32`. -/
theorem stateAfter_eq (n : Nat) : stateAfter n = ⟨n % 2 ^ 32⟩ := by
  induction n with
  | zero => rfl
  | succ n ih =>
    unfold stateAfter
    rw [ih]
    have h32 : (2 : Nat) ^ 32 = 4294967296 := by norm_num
    simp only [Gen2.ParserState.callNextId, h32, Gen2.ParserState.mk.injEq]
    omega

/-- The id returned by the `(n+1)`-st call is `n % 2^32`. -/
theorem idAt_eq (n : Nat) : idAt n = n % 2 ^ 32 := by
  unfold idAt
  rw [stateAfter_eq]
  rfl

/-! ## Claims -/

/-- C1: in every generation, the binary-operator ladder parses product
operators as binding tighter than sum operators and sum operators as binding
tighter than comparison operators, and equal-precedence operators fold
left-associatively: `a + b * c` parses as `a + (b * c)`, `a == b + c` as
`a == (b + c)`, and `a - b - c` as `(a - b) - c`. -/
theorem c1_binary_operator_ladder :
    (Gen1.exprP 6 ()
        [(.Ident "a", ⟨0, 1⟩), (.Plus, ⟨2, 3⟩), (.Ident "b", ⟨4, 5⟩),
         (.Asterisk, ⟨6, 7⟩), (.Ident "c", ⟨8, 9⟩)] =
      .ok (.mk (.binOp .add (.mk (.name "a") ⟨0, 1⟩)
            (.mk (.binOp .mul (.mk (.name "b") ⟨4, 5⟩)
              (.mk (.name "c") ⟨8, 9⟩) ⟨4, 9⟩) ⟨4, 9⟩)
            ⟨0, 9⟩) ⟨0, 9⟩) () [])
  ∧ (Gen1.exprP 6 ()
        [(.Ident "a", ⟨0, 1⟩), (.EqEq, ⟨2, 4⟩), (.Ident "b", ⟨5, 6⟩),
         (.Plus, ⟨7, 8⟩), (.Ident "c", ⟨9, 10⟩)] =
      .ok (.mk (.binOp .eq (.mk (.name "a") ⟨0, 1⟩)
            (.mk (.binOp .add (.mk (.name "b") ⟨5, 6⟩)
              (.mk (.name "c") ⟨9, 10⟩) ⟨5, 10⟩) ⟨5, 10⟩)
            ⟨0, 10⟩) ⟨0, 10⟩) () [])
  ∧ (Gen1.exprP 6 ()
        [(.Ident "a", ⟨0, 1⟩), (.Minus, ⟨2, 3⟩), (.Ident "b", ⟨4, 5⟩),
         (.Minus, ⟨6, 7⟩), (.Ident "c", ⟨8, 9⟩)] =
      .ok (.mk (.binOp .sub
            (.mk (.binOp .sub (.mk (.name "a") ⟨0, 1⟩)
              (.mk (.name "b") ⟨4, 5⟩) ⟨0, 5⟩) ⟨0, 5⟩)
            (.mk (.name "c") ⟨8, 9⟩) ⟨0, 9⟩) ⟨0, 9⟩) () [])
  ∧ (Gen2.exprP 6 ⟨0⟩
        [(.Ident "a", ⟨0, 1⟩), (.Plus, ⟨2, 3⟩), (.Ident "b", ⟨4, 5⟩),
         (.Asterisk, ⟨6, 7⟩), (.Ident "c", ⟨8, 9⟩)] =
      .ok (.mk (.binOp .add (.mk (.name "a") 0 ⟨0, 1⟩)
            (.mk (.binOp .mul (.mk (.name "b") 1 ⟨4, 5⟩)
              (.mk (.name "c") 2 ⟨8, 9⟩) ⟨4, 9⟩) 3 ⟨4, 9⟩)
            ⟨0, 9⟩) 4 ⟨0, 9⟩) ⟨5⟩ [])
  ∧ (Gen2.exprP 6 ⟨0⟩
        [(.Ident "a", ⟨0, 1⟩), (.EqEq, ⟨2, 4⟩), (.Ident "b", ⟨5, 6⟩),
         (.Plus, ⟨7, 8⟩), (.Ident "c", ⟨9, 10⟩)] =
      .ok (.mk (.binOp .eq (.mk (.name "a") 0 ⟨0, 1⟩)
            (.mk (.binOp .add (.mk (.name "b") 1 ⟨5, 6⟩)
              (.mk (.name "c") 2 ⟨9, 10⟩) ⟨5, 10⟩) 3 ⟨5, 10⟩)
            ⟨0, 10⟩) 4 ⟨0, 10⟩) ⟨5⟩ [])
  ∧ (Gen2.exprP 6 ⟨0⟩
        [(.Ident "a", ⟨0, 1⟩), (.Minus, ⟨2, 3⟩), (.Ident "b", ⟨4, 5⟩),
         (.Minus, ⟨6, 7⟩), (.Ident "c", ⟨8, 9⟩)] =
      .ok (.mk (.binOp .sub
            (.mk (.binOp .sub (.mk (.name "a") 0 ⟨0, 1⟩)
              (.mk (.name "b") 1 ⟨4, 5⟩) ⟨0, 5⟩) 3 ⟨0, 5⟩)
            (.mk (.name "c") 2 ⟨8, 9⟩) ⟨0, 9⟩) 4 ⟨0, 9⟩) ⟨5⟩ [])
  ∧ (Gen3.exprP 6 ()
        [(.Ident "a", ⟨0, 1⟩), (.Plus, ⟨2, 3⟩), (.Ident "b", ⟨4, 5⟩),
         (.Asterisk, ⟨6, 7⟩), (.Ident "c", ⟨8, 9⟩)] =
      .ok (.binOp .add (.name "a")
            (.binOp .mul (.name "b") (.name "c") ⟨0, 0⟩) ⟨0, 0⟩) () [])
  ∧ (Gen3.exprP 6 ()
        [(.Ident "a", ⟨0, 1⟩), (.EqEq, ⟨2, 4⟩), (.Ident "b", ⟨5, 6⟩),
         (.Plus, ⟨7, 8⟩), (.Ident "c", ⟨9, 10⟩)] =
      .ok (.binOp .eq (.name "a")
            (.binOp .add (.name "b") (.name "c") ⟨0, 0⟩) ⟨0, 0⟩) () [])
  ∧ (Gen3.exprP 6 ()
        [(.Ident "a", ⟨0, 1⟩), (.Minus, ⟨2, 3⟩), (.Ident "b", ⟨4, 5⟩),
         (.Minus, ⟨6, 7⟩), (.Ident "c", ⟨8, 9⟩)] =
      .ok (.binOp .sub
            (.binOp .sub (.name "a") (.name "b") ⟨0, 0⟩)
            (.name "c") ⟨0, 0⟩) () []) :=
  ⟨rfl, rfl, rfl, rfl, rfl, rfl, rfl, rfl, rfl⟩

/-- C2: in the two generations with a unary level, prefix unary operators
bind tighter than the product level and fold right over a Call-level
operand: `*a * *b` parses as `(*a) * (*b)` and `-2*3` as `(-2)*3`. -/
theorem c2_unary_binds_tighter_than_product :
    (Gen1.exprP 6 ()
        [(.Asterisk, ⟨0, 1⟩), (.Ident "a", ⟨1, 2⟩), (.Asterisk, ⟨3, 4⟩),
         (.Asterisk, ⟨5, 6⟩), (.Ident "b", ⟨6, 7⟩)] =
      .ok (.mk (.binOp .mul
            (.mk (.unaryOp .deref (.mk (.name "a") ⟨1, 2⟩) ⟨1, 2⟩) ⟨1, 2⟩)
            (.mk (.unaryOp .deref (.mk (.name "b") ⟨6, 7⟩) ⟨6, 7⟩) ⟨6, 7⟩)
            ⟨1, 7⟩) ⟨1, 7⟩) () [])
  ∧ (Gen1.exprP 5 ()
        [(.Minus, ⟨0, 1⟩), (.Integer ['2'], ⟨1, 2⟩), (.Asterisk, ⟨2, 3⟩),
         (.Integer ['3'], ⟨3, 4⟩)] =
      .ok (.mk (.binOp .mul
            (.mk (.unaryOp .neg
              (.mk (.literal (.integer 2 ⟨1, 2⟩)) ⟨1, 2⟩) ⟨1, 2⟩) ⟨1, 2⟩)
            (.mk (.literal (.integer 3 ⟨3, 4⟩)) ⟨3, 4⟩)
            ⟨1, 4⟩) ⟨1, 4⟩) () [])
  ∧ (Gen2.exprP 6 ⟨0⟩
        [(.Asterisk, ⟨0, 1⟩), (.Ident "a", ⟨1, 2⟩), (.Asterisk, ⟨3, 4⟩),
         (.Asterisk, ⟨5, 6⟩), (.Ident "b", ⟨6, 7⟩)] =
      .ok (.mk (.binOp .mul
            (.mk (.unaryOp .deref (.mk (.name "a") 0 ⟨1, 2⟩) ⟨1, 2⟩) 1 ⟨1, 2⟩)
            (.mk (.unaryOp .deref (.mk (.name "b") 2 ⟨6, 7⟩) ⟨6, 7⟩) 3 ⟨6, 7⟩)
            ⟨1, 7⟩) 4 ⟨1, 7⟩) ⟨5⟩ [])
  ∧ (Gen2.exprP 5 ⟨0⟩
        [(.Minus, ⟨0, 1⟩), (.Integer 2, ⟨1, 2⟩), (.Asterisk, ⟨2, 3⟩),
         (.Integer 3, ⟨3, 4⟩)] =
      .ok (.mk (.binOp .mul
            (.mk (.unaryOp .neg
              (.mk (.literal (.integer 2 ⟨1, 2⟩)) 0 ⟨1, 2⟩) ⟨1, 2⟩) 1 ⟨1, 2⟩)
            (.mk (.literal (.integer 3 ⟨3, 4⟩)) 2 ⟨3, 4⟩)
            ⟨1, 4⟩) 3 ⟨1, 4⟩) ⟨4⟩ []) :=
  ⟨rfl, rfl, rfl, rfl⟩

/-- C3: call application folds left into nested `Call` nodes (`f()()` yields
`Call(Call(f, []), [])`), and every `Call` node's span runs from the callee's
span start to the last argument's span end — or to the callee's own span end
when the argument list is empty, as in `f()()`, where the outer callee's span
is exactly `f`'s span, ending before the second `()`. -/
theorem c3_call_fold_and_span :
    (∀ (callee lastA : Gen1.Expr) (args : List Gen1.Expr),
      (Gen1.mkCall callee (args ++ [lastA])).span =
        ⟨callee.span.start, lastA.span.stop⟩)
  ∧ (∀ callee : Gen1.Expr,
      (Gen1.mkCall callee []).span = ⟨callee.span.start, callee.span.stop⟩)
  ∧ (∀ (callee lastA : Gen2.Expr) (args : List Gen2.Expr) (s : Gen2.ParserState),
      ((Gen2.mkCall callee (args ++ [lastA]) s).1).span =
        ⟨callee.span.start, lastA.span.stop⟩)
  ∧ (∀ (callee : Gen2.Expr) (s : Gen2.ParserState),
      ((Gen2.mkCall callee [] s).1).span = ⟨callee.span.start, callee.span.stop⟩)
  ∧ (Gen1.exprP 6 ()
        [(.Ident "f", ⟨0, 1⟩), (.ParenO, ⟨1, 2⟩), (.ParenC, ⟨2, 3⟩),
         (.ParenO, ⟨3, 4⟩), (.ParenC, ⟨4, 5⟩)] =
      .ok (.mk (.call
            (.mk (.call (.mk (.name "f") ⟨0, 1⟩) []) ⟨0, 1⟩) []) ⟨0, 1⟩) () [])
  ∧ (Gen2.exprP 6 ⟨0⟩
        [(.Ident "f", ⟨0, 1⟩), (.ParenO, ⟨1, 2⟩), (.ParenC, ⟨2, 3⟩),
         (.ParenO, ⟨3, 4⟩), (.ParenC, ⟨4, 5⟩)] =
      .ok (.mk (.call
            (.mk (.call (.mk (.name "f") 0 ⟨0, 1⟩) []) 1 ⟨0, 1⟩) []) 2 ⟨0, 1⟩)
        ⟨3⟩ []) := by
  refine ⟨?_, ?_, ?_, ?_, rfl, rfl⟩
  · intro callee lastA args
    simp [Gen1.mkCall, Gen1.Expr.span]
  · intro callee
    simp [Gen1.mkCall, Gen1.Expr.span]
  · intro callee lastA args s
    simp [Gen2.mkCall, Gen2.Expr.span, Gen2.ParserState.callNextId]
  · intro callee s
    simp [Gen2.mkCall, Gen2.Expr.span, Gen2.ParserState.callNextId]

/-- C4: of the three generations' file parsers, exactly the first two
(`src/parser`, `src/src`) require the item sequence to consume the entire
token stream before returning a `File` — any successful run of their file
rule leaves an empty remainder — while `src/ub_parser` does not enforce
end-of-input: on a struct item followed by a stray `;` it silently succeeds
with the items parsed so far (and the other two generations reject the same
stream). -/
theorem c4_end_of_input_policy :
    (∀ (fileName : String) (fuel : Nat) (ts : List (Gen1.Tok × Span))
        (f : Gen1.File) (u u' : Unit) (rest : List (Gen1.Tok × Span)),
      Gen1.fileP fileName fuel u ts = .ok f u' rest → rest = [])
  ∧ (∀ (fileName : String) (fuel : Nat) (ts : List (Gen2.Tok × Span))
        (f : Gen2.File) (s s' : Gen2.ParserState) (rest : List (Gen2.Tok × Span)),
      Gen2.fileP fileName fuel s ts = .ok f s' rest → rest = [])
  ∧ (Gen3.fileP "t" 6 () structSemiToks =
      .ok { name := "t",
            items := [.structDecl { name := "X", fields := [], span := ⟨0, 0⟩ }] }
        () [(.Semi, ⟨12, 13⟩)])
  ∧ (Gen1.parse structSemiToks "t" = some (none, [Diag.mk]))
  ∧ (Gen2.parse structSemiToks2 "t" = (none, [Diag.mk]))
  ∧ (Gen3.parse structSemiToks "t" =
      some (some { name := "t",
                   items := [.structDecl
                              { name := "X", fields := [], span := ⟨0, 0⟩ }] },
        [])) := by
  refine ⟨?_, ?_, rfl, rfl, rfl, rfl⟩
  · intro fileName fuel ts f u u' rest h
    unfold Gen1.fileP at h
    obtain ⟨a, ha⟩ := pmap_ok_rest h
    exact pthenIgnore_pEnd_ok ha
  · intro fileName fuel ts f s s' rest h
    unfold Gen2.fileP at h
    obtain ⟨a, ha⟩ := pmap_ok_rest h
    exact pthenIgnore_pEnd_ok ha

/-- C4 witness: the first conjunct applied to the empty stream, whose file
parse succeeds with an empty remainder. -/
theorem c4_end_of_input_policy_witness : ([] : List (Gen1.Tok × Span)) = [] :=
  c4_end_of_input_policy.1 "t" 1 [] { name := "t", items := [] } () () [] rfl

/-- C5 counterexample: the node-id counter is a `u32` and wraps, so the
claim that every successive `next_id` call returns a strictly larger id
fails at the call boundary `2 ^ 32`: within one parse invocation, call
number `4294967296` (0-indexed `4294967295`) returns `4294967295`, and the
next call returns `0`. -/
theorem c5_counterexample :
    idAt 4294967295 = 4294967295 ∧ idAt 4294967296 = 0 ∧
      ¬ idAt 4294967295 < idAt 4294967296 := by
  have h32 : (2 : Nat) ^ 32 = 4294967296 := by norm_num
  have h1 : idAt 4294967295 = 4294967295 := by rw [idAt_eq, h32]
  have h2 : idAt 4294967296 = 0 := by rw [idAt_eq, h32]
  refine ⟨h1, h2, ?_⟩
  rw [h1, h2]
  exact Nat.not_lt_zero 4294967295

/-- C5 (amended): within one parse invocation, `ParserState::next_id` is
strictly increasing as long as fewer than `2 ^ 32` ids have been handed out
(the `u32` counter wraps after that), so the first `2 ^ 32` ids are unique. -/
theorem c5_next_id_monotone (m n : Nat) (hmn : m < n) (hn : n < 2 ^ 32) :
    idAt m < idAt n := by
  rw [idAt_eq, idAt_eq, Nat.mod_eq_of_lt (lt_trans hmn hn), Nat.mod_eq_of_lt hn]
  exact hmn

/-- C5 witness: the amended monotonicity at the first two calls. -/
theorem c5_next_id_monotone_witness : idAt 0 < idAt 1 :=
  c5_next_id_monotone 0 1 (by norm_num) (by norm_num)

/-- C6: an integer-literal token whose decimal digit sequence denotes
`2 ^ 64` (one past `u64::MAX`) is all digits, its conversion fails, and the
expression parsers of `src/parser` and `src/ub_parser` — which call
`int.parse().unwrap()` — abort on it instead of recording a diagnostic. -/
theorem c6_literal_conversion_panics :
    ("18446744073709551616".toList.all Char.isDigit = true)
  ∧ ("18446744073709551616".toList.foldl
        (fun acc c => acc * 10 + (c.toNat - 48)) 0 = 2 ^ 64)
  ∧ (u64FromStr "18446744073709551616".toList = none)
  ∧ (Gen1.exprP 2 () [(.Integer "18446744073709551616".toList, ⟨0, 20⟩)] = .panic)
  ∧ (Gen3.exprP 2 () [(.Integer "18446744073709551616".toList, ⟨0, 20⟩)] = .panic) :=
  ⟨rfl, rfl, rfl, rfl, rfl⟩

/-- C7: for every string-literal token of length at least 3 (written
`a :: mid ++ [b, c]`), every generation stores the token's text with exactly
one leading and exactly two trailing characters stripped — the stored text
is `mid`, not the symmetric one-and-one trimming. -/
theorem c7_string_literal_trimming (a : Char) (mid : List Char) (b c : Char)
    (sp : Span) :
    (Gen1.exprP 2 () [(.String (a :: mid ++ [b, c]), sp)] =
      .ok (.mk (.literal (.string mid sp)) sp) () [])
  ∧ (Gen2.exprP 2 ⟨0⟩ [(.String (a :: mid ++ [b, c]), sp)] =
      .ok (.mk (.literal (.string mid sp)) 0 sp) ⟨1⟩ [])
  ∧ (Gen3.exprP 2 () [(.String (a :: mid ++ [b, c]), sp)] =
      .ok (.literal (.string mid sp)) () []) := by
  refine ⟨?_, ?_, ?_⟩
  · calc
      Gen1.exprP 2 () [(.String (a :: mid ++ [b, c]), sp)] =
          .ok (.mk (.literal (.string (strTrim (a :: mid ++ [b, c])) sp)) sp) () [] :=
        rfl
      _ = .ok (.mk (.literal (.string mid sp)) sp) () [] := by
        rw [strTrim_concat]
  · calc
      Gen2.exprP 2 ⟨0⟩ [(.String (a :: mid ++ [b, c]), sp)] =
          .ok (.mk (.literal (.string (strTrim (a :: mid ++ [b, c])) sp)) 0 sp) ⟨1⟩ [] :=
        rfl
      _ = .ok (.mk (.literal (.string mid sp)) 0 sp) ⟨1⟩ [] := by
        rw [strTrim_concat]
  · calc
      Gen3.exprP 2 () [(.String (a :: mid ++ [b, c]), sp)] =
          .ok (.literal (.string (strTrim (a :: mid ++ [b, c])) sp)) () [] :=
        rfl
      _ = .ok (.literal (.string mid sp)) () [] := by
        rw [strTrim_concat]

/-- C8 counterexample: the claim fails in the `src/ub_parser` generation —
parsing `1 + 2` (lhs at bytes 0..1, rhs at bytes 4..5) produces a `BinOp`
whose span is the hardcoded placeholder `0..0`, not `0..5` as the
lhs-start-to-rhs-end rule would give. -/
theorem c8_counterexample :
    (Gen3.exprP 4 ()
        [(.Integer ['1'], ⟨0, 1⟩), (.Plus, ⟨2, 3⟩), (.Integer ['2'], ⟨4, 5⟩)] =
      .ok (.binOp .add (.literal (.integer 1 ⟨0, 1⟩))
            (.literal (.integer 2 ⟨4, 5⟩)) ⟨0, 0⟩) () [])
  ∧ (Span.mk 0 0 ≠ Span.mk 0 5) :=
  ⟨rfl, by decide⟩

/-- C8 (amended): in the `src/parser` and `src/src` generations every
`BinOp` node produced by a binary fold at the product, sum or compare level
carries the span `lhs.span.start .. rhs.span.end` (the three levels share
one fold closure per generation), as the parses of `1 + 2` exhibit; in the
`src/ub_parser` generation the fold instead hardcodes the span `0..0`. -/
theorem c8_binop_span_rule :
    (∀ (kind : BinOpKind) (a b : Gen1.Expr),
      (Gen1.mkBinOp kind a b).span = ⟨a.span.start, b.span.stop⟩)
  ∧ (∀ (kind : BinOpKind) (a b : Gen2.Expr) (s : Gen2.ParserState),
      ((Gen2.mkBinOp kind a b s).1).span = ⟨a.span.start, b.span.stop⟩)
  ∧ (∀ (kind : BinOpKind) (a b : Gen3.Expr),
      Gen3.mkBinOp kind a b = .binOp kind a b ⟨0, 0⟩)
  ∧ (Gen1.exprP 4 ()
        [(.Integer ['1'], ⟨0, 1⟩), (.Plus, ⟨2, 3⟩), (.Integer ['2'], ⟨4, 5⟩)] =
      .ok (.mk (.binOp .add (.mk (.literal (.integer 1 ⟨0, 1⟩)) ⟨0, 1⟩)
            (.mk (.literal (.integer 2 ⟨4, 5⟩)) ⟨4, 5⟩) ⟨0, 5⟩) ⟨0, 5⟩) () [])
  ∧ (Gen2.exprP 4 ⟨0⟩
        [(.Integer 1, ⟨0, 1⟩), (.Plus, ⟨2, 3⟩), (.Integer 2, ⟨4, 5⟩)] =
      .ok (.mk (.binOp .add (.mk (.literal (.integer 1 ⟨0, 1⟩)) 0 ⟨0, 1⟩)
            (.mk (.literal (.integer 2 ⟨4, 5⟩)) 1 ⟨4, 5⟩) ⟨0, 5⟩) 2 ⟨0, 5⟩)
        ⟨3⟩ []) := by
  refine ⟨?_, ?_, ?_, rfl, rfl⟩
  · intro kind a b
    simp [Gen1.mkBinOp, Gen1.Expr.span]
  · intro kind a b s
    simp [Gen2.mkBinOp, Gen2.Expr.span, Gen2.ParserState.callNextId]
  · intro kind a b
    simp [Gen3.mkBinOp]

/-- C9: on the empty token stream, every generation's `parse` succeeds
silently — it returns a `File` with an empty item list together with an
empty diagnostics list (and, for the generations whose conversions can
abort, no panic either). -/
theorem c9_empty_stream_parses (fileName : String) :
    (Gen1.parse [] fileName = some (some { name := fileName, items := [] }, []))
  ∧ (Gen2.parse [] fileName = (some { name := fileName, items := [] }, []))
  ∧ (Gen3.parse [] fileName = some (some { name := fileName, items := [] }, [])) :=
  ⟨rfl, rfl, rfl⟩

/-- C10: in the `src/ub_parser` generation, the statement terminator `;`
is required after every statement alternative, including a nested function
or struct declaration used as a statement — without the trailing `;` the
statement parse fails — whereas the same declarations parse as top-level
items with no terminator. -/
theorem c10_nested_item_semicolon :
    (Gen3.stmtP (Gen3.itemP 8) 8 () (nestedFnToks ++ [(.Semi, ⟨12, 13⟩)]) =
      .ok (.item (.fnDecl (.mk "foo2" [] none ⟨0, 2⟩ []))) () [])
  ∧ (Gen3.stmtP (Gen3.itemP 8) 8 () nestedFnToks = .err ())
  ∧ (Gen3.stmtP (Gen3.itemP 8) 8 () (nestedStructToks ++ [(.Semi, ⟨12, 13⟩)]) =
      .ok (.item (.structDecl { name := "X", fields := [], span := ⟨0, 0⟩ })) () [])
  ∧ (Gen3.stmtP (Gen3.itemP 8) 8 () nestedStructToks = .err ())
  ∧ (Gen3.itemP 8 () nestedFnToks =
      .ok (.fnDecl (.mk "foo2" [] none ⟨0, 2⟩ [])) () [])
  ∧ (Gen3.itemP 8 () nestedStructToks =
      .ok (.structDecl { name := "X", fields := [], span := ⟨0, 0⟩ }) () []) :=
  ⟨rfl, rfl, rfl, rfl, rfl, rfl⟩
